import Mathlib

/-!
# Verification of the NYC collision ETL job (`etl_job.py`, `config.py`)

A shallow embedding of the claim-relevant parts of the repository:

* Spark SQL column expressions used by `transform_data` (null-propagating
  arithmetic and comparisons, three-valued `AND`, the `when`/`otherwise`
  chains, string-to-int casts);
* the pagination loop of `download_new_data` over a modelled HTTP trace,
  including `unionByName` accumulation;
* the watermark store (`read_last_collision_date` /
  `update_last_collision_date`) over a modelled object store;
* the orchestration in `main` (try/except/finally, watermark update only
  after a successful load).

Dynamic JSON records are modelled as association lists from field name to
string value; a missing key plays the role of a SQL `null`.
-/

set_option autoImplicit false

namespace NycEtl

/-! ## Spark SQL expression semantics

Spark column values are nullable; we model a nullable value of type `α` as
`Option α`.  Comparisons on a null operand yield null; `when` treats a null
condition as not matched; `AND` is Kleene three-valued. -/

/-- Three-valued `AND` of Spark SQL boolean columns: `false` dominates,
`null` otherwise propagates. -/
def sAnd : Option Bool → Option Bool → Option Bool
  | some false, _ => some false
  | _, some false => some false
  | some true, some true => some true
  | _, _ => none

/-- Null-propagating comparison `col >= n`. -/
def cmpGe (a : Option Int) (n : Int) : Option Bool :=
  a.map (fun v => decide (v ≥ n))

/-- Null-propagating comparison `col < n`. -/
def cmpLt (a : Option Int) (n : Int) : Option Bool :=
  a.map (fun v => decide (v < n))

/-- Null-propagating comparison `col <= n`. -/
def cmpLe (a : Option Int) (n : Int) : Option Bool :=
  a.map (fun v => decide (v ≤ n))

/-- Null-propagating comparison `col == n`. -/
def cmpEq (a : Option Int) (n : Int) : Option Bool :=
  a.map (fun v => decide (v = n))

/-- Null-propagating addition of two integer columns. -/
def nadd (a b : Option Int) : Option Int :=
  match a, b with
  | some x, some y => some (x + y)
  | _, _ => none

/-- One link of a Spark `when(cond, v). ... .otherwise(e)` chain: the branch
is taken only when the condition is non-null `true`. -/
def sparkWhen (cond : Option Bool) (v : String) (els : String) : String :=
  if cond = some true then v else els

/-! ## `cast("int")` on a string column

Spark's non-ANSI string-to-int cast trims whitespace, accepts an optional
sign followed by decimal digits, and yields null on anything else or on
32-bit overflow. -/

/-- Value of a nonempty all-digit character list, `none` otherwise. -/
def parseDigits : List Char → Option Nat
  | [] => none
  | cs =>
    if cs.all Char.isDigit then
      some (cs.foldl (fun acc c => acc * 10 + (c.toNat - 48)) 0)
    else
      none

/-- Drop leading and trailing whitespace characters. -/
def trimChars (cs : List Char) : List Char :=
  ((cs.dropWhile Char.isWhitespace).reverse.dropWhile Char.isWhitespace).reverse

/-- Signed integer value of a trimmed character list, `none` if malformed. -/
def parseSigned : List Char → Option Int
  | [] => none
  | '+' :: rest => (parseDigits rest).map (fun n => (n : Int))
  | '-' :: rest => (parseDigits rest).map (fun n => -(n : Int))
  | cs => (parseDigits cs).map (fun n => (n : Int))

/-- Spark `col.cast("int")` on a string value: trim, parse optional sign and
digits, null when malformed or outside the 32-bit range. -/
def castStringToInt (s : String) : Option Int :=
  match parseSigned (trimChars s.data) with
  | none => none
  | some v => if -(2 ^ 31) ≤ v ∧ v < 2 ^ 31 then some v else none

/-! ## Derived categorical columns of `transform_data` -/

/-- The `time_of_day` `when`-chain of `transform_data` (step 7), as a
function of the (nullable) `hour` column. -/
def timeOfDay (h : Option Int) : String :=
  sparkWhen (sAnd (cmpGe h 0) (cmpLt h 6)) "Late Night"
    (sparkWhen (sAnd (cmpGe h 6) (cmpLt h 12)) "Morning"
      (sparkWhen (sAnd (cmpGe h 12) (cmpLt h 17)) "Afternoon"
        (sparkWhen (sAnd (cmpGe h 17) (cmpLt h 21)) "Evening"
          "Night")))

/-- The `severity_category` `when`-chain of `transform_data` (step 9), as a
function of the (nullable) `total_injuries` and `total_fatalities` columns. -/
def severityCategory (ti tf : Option Int) : String :=
  sparkWhen (cmpEq (nadd ti tf) 0) "Minor"
    (sparkWhen (cmpLe (nadd ti tf) 2) "Moderate"
      "Severe")

/-! ## Dynamic records and dataframes

A raw Socrata record is a JSON object with string values; the source API
omits null-valued fields, so a record is an association list from field
name to value and a missing key is a SQL `null`. -/

/-- A raw JSON record: field name to string value. -/
def Row : Type := List (String × String)

instance : DecidableEq Row := inferInstanceAs (DecidableEq (List (String × String)))

/-- Value of field `c` in record `r` (`none` models SQL null / absent). -/
def getField (r : Row) (c : String) : Option String :=
  List.lookup c r

/-- Append a column name if it is not already present. -/
def insertCol (cols : List String) (c : String) : List String :=
  if c ∈ cols then cols else cols ++ [c]

/-- Schema inference of `spark.createDataFrame` over a list of JSON
records: the union of the keys of all records, in order of first
appearance. -/
def inferCols (rows : List Row) : List String :=
  rows.foldl (fun acc r => (r.map Prod.fst).foldl insertCol acc) []

/-- A Spark dataframe: a schema (column list) and its rows. -/
structure DF where
  cols : List String
  rows : List Row
deriving DecidableEq

/-- Dataframe built by `spark.createDataFrame(data)`. -/
def mkDF (data : List Row) : DF :=
  { cols := inferCols data, rows := data }

/-- Equality of two schemas as column sets. -/
def colsEqv (a b : List String) : Bool :=
  a.all (fun c => decide (c ∈ b)) && b.all (fun c => decide (c ∈ a))

/-- Errors surfaced to the orchestrator by the fetch stage of the model. -/
inductive FetchErr where
  /-- `unionByName` raised: the two dataframes have different column sets
  (no `allowMissingColumns`). -/
  | schemaMismatch
  /-- The modelled HTTP trace ended before the loop did. -/
  | missingResponse
deriving Repr, DecidableEq

/-- `DataFrame.unionByName` (default `allowMissingColumns=False`): resolves
columns by name, raising an analysis error when the column sets differ. -/
def unionByName (a b : DF) : Except FetchErr DF :=
  if colsEqv a.cols b.cols then .ok { cols := a.cols, rows := a.rows ++ b.rows }
  else .error .schemaMismatch

/-! ## `download_new_data` -/

/-- `LIMIT` from `config.py`. -/
def LIMIT : Nat := 50000

/-- The `$where` query parameter: `crash_date > '<watermark>'`. -/
def whereClause (wm : String) : String :=
  "crash_date > \x27" ++ wm ++ "\x27"

/-- One HTTP GET issued by `download_new_data`, with its query parameters. -/
structure Request where
  whereFilter : String
  limit : Nat
  offset : Nat
deriving Repr, DecidableEq

/-- The request issued at a given offset for a given watermark. -/
def mkRequest (wm : String) (offset : Nat) : Request :=
  { whereFilter := whereClause wm, limit := LIMIT, offset := offset }

/-- One HTTP response of the modelled API: a status code and the parsed
JSON array of records. -/
structure ApiResponse where
  status : Nat
  body : List Row
deriving DecidableEq

/-- Accumulation step: the first page replaces the `None` accumulator, any
later page is merged with `unionByName`. -/
def unionAcc (acc : Option DF) (b : DF) : Except FetchErr DF :=
  match acc with
  | none => .ok b
  | some a => unionByName a b

/-- The `while True` loop of `download_new_data`, consuming one modelled
response per iteration.  Returns the list of requests issued and either the
accumulated dataframe (`none` when no page contributed) or the error raised
by `unionByName`. -/
def downloadLoop (wm : String) :
    Option DF → Nat → List ApiResponse → List Request × Except FetchErr (Option DF)
  | _, _, [] => ([], .error .missingResponse)
  | acc, offset, r :: rest =>
    if r.status ≠ 200 then
      ([mkRequest wm offset], .ok acc)
    else if r.body = [] then
      ([mkRequest wm offset], .ok acc)
    else
      match unionAcc acc (mkDF r.body) with
      | .error e => ([mkRequest wm offset], .error e)
      | .ok acc2 =>
        let res := downloadLoop wm (some acc2) (offset + LIMIT) rest
        (mkRequest wm offset :: res.1, res.2)

/-- `download_new_data(last_collision_date)` against a modelled HTTP
trace. -/
def download_new_data (wm : String) (responses : List ApiResponse) :
    List Request × Except FetchErr (Option DF) :=
  downloadLoop wm none 0 responses

/-! ## `transform_data`, row level

The claim-relevant columns of the transformed record.  The remaining
derivations (timestamps, calendar fields, coordinates, projection) do not
touch these columns.  `transform_data` references a fixed set of columns
unconditionally (`dropna` on `collision_id`, `crash_date` and `crash_time`
for the timestamp, the eight count columns in the totals, and
`latitude`/`longitude`), so Spark's analyzer raises on any batch whose
schema lacks one of them and no record is emitted; the model returns an
error in exactly that case.  A record of a conforming batch can still lack
a key, which is a null value for that column. -/

/-- The claim-relevant columns of a transformed record. -/
structure TRow where
  collision_id : Option Int
  total_injuries : Option Int
  total_fatalities : Option Int
  severity_category : String
deriving Repr, DecidableEq

/-- `col(c).cast("int")` applied to field `c` of record `r`. -/
def castCol (r : Row) (c : String) : Option Int :=
  (getField r c).bind castStringToInt

/-- `total_injuries`: left-associated null-propagating sum of the four
injured counts (step 8 of `transform_data`). -/
def totalInjuries (r : Row) : Option Int :=
  nadd
    (nadd
      (nadd (castCol r "number_of_persons_injured")
        (castCol r "number_of_pedestrians_injured"))
      (castCol r "number_of_cyclist_injured"))
    (castCol r "number_of_motorist_injured")

/-- `total_fatalities`: left-associated null-propagating sum of the four
killed counts (step 8 of `transform_data`). -/
def totalFatalities (r : Row) : Option Int :=
  nadd
    (nadd
      (nadd (castCol r "number_of_persons_killed")
        (castCol r "number_of_pedestrians_killed"))
      (castCol r "number_of_cyclist_killed"))
    (castCol r "number_of_motorist_killed")

/-- The per-record effect of `transform_data` on the claim-relevant
columns (applied after the `dropna` filter). -/
def transformRow (r : Row) : TRow :=
  { collision_id := (getField r "collision_id").bind castStringToInt
    total_injuries := totalInjuries r
    total_fatalities := totalFatalities r
    severity_category := severityCategory (totalInjuries r) (totalFatalities r) }

/-- The columns `transform_data` references unconditionally: `dropna` and
the cast on `collision_id` (lines 126/129), `to_date`/`concat_ws` on
`crash_date` and `crash_time` (lines 148-154), the eight count columns of
the totals (lines 183-197, unlike the guarded cast loop of lines 142-144),
and the `latitude`/`longitude` casts (lines 208-209).  `location` and the
projection columns are guarded by explicit `in data.columns` checks. -/
def requiredCols : List String :=
  ["collision_id", "crash_date", "crash_time",
    "number_of_persons_injured", "number_of_persons_killed",
    "number_of_pedestrians_injured", "number_of_pedestrians_killed",
    "number_of_cyclist_injured", "number_of_cyclist_killed",
    "number_of_motorist_injured", "number_of_motorist_killed",
    "latitude", "longitude"]

/-- Failure of `transform_data`: Spark's analyzer rejects the plan when a
referenced column is absent from the batch schema. -/
inductive TransformErr where
  /-- `AnalysisException`: an unconditionally referenced column is missing. -/
  | analysisException
deriving Repr, DecidableEq

/-- Model of `transform_data` on the claim-relevant columns: raise when the
batch schema lacks an unconditionally referenced column; otherwise drop
records whose raw `collision_id` is null and apply the column
derivations. -/
def transform_data (df : DF) : Except TransformErr (List TRow) :=
  if requiredCols.all (fun c => decide (c ∈ df.cols)) then
    Except.ok
      ((df.rows.filter (fun r => (getField r "collision_id").isSome)).map transformRow)
  else
    Except.error TransformErr.analysisException

/-- A full-schema raw record whose `collision_id` is a non-null,
non-numeric string. -/
def nonNumericIdRow : Row :=
  [("collision_id", "abc"), ("crash_date", "2023-09-01T00:00:00.000"),
    ("crash_time", "5:30"),
    ("number_of_persons_injured", "0"), ("number_of_persons_killed", "0"),
    ("number_of_pedestrians_injured", "0"), ("number_of_pedestrians_killed", "0"),
    ("number_of_cyclist_injured", "0"), ("number_of_cyclist_killed", "0"),
    ("number_of_motorist_injured", "0"), ("number_of_motorist_killed", "0"),
    ("latitude", "40.7"), ("longitude", "-73.9")]

/-- A full-schema raw record whose `collision_id` is a numeric string. -/
def numericIdRow : Row :=
  [("collision_id", "123"), ("crash_date", "2023-09-01T00:00:00.000"),
    ("crash_time", "5:30"),
    ("number_of_persons_injured", "0"), ("number_of_persons_killed", "0"),
    ("number_of_pedestrians_injured", "0"), ("number_of_pedestrians_killed", "0"),
    ("number_of_cyclist_injured", "0"), ("number_of_cyclist_killed", "0"),
    ("number_of_motorist_injured", "0"), ("number_of_motorist_killed", "0"),
    ("latitude", "40.7"), ("longitude", "-73.9")]

/-- Single-column records for two API pages with different column sets. -/
def boroughOnlyRow : Row := [("borough", "BROOKLYN")]

/-- Single-column record whose only field is `collision_id`. -/
def idOnlyRow : Row := [("collision_id", "1")]

/-! ## Watermark store (`read_last_collision_date` / `update_last_collision_date`)

Object storage is a map from bucket/key to object body.  The watermark
document is JSON `\x7b"last_collision_date": "<date>"\x7d`; we model
`json.dumps` of that one-field document literally, and `json.loads`
followed by the `"last_collision_date"` indexing as recovery of the value
between the fixed head and tail of the document. -/

/-- `CONFIG_BUCKET` from `config.py`. -/
def CONFIG_BUCKET : String := "nyc-collisions-ecc"

/-- `CONFIG_FILE_KEY` from `config.py`. -/
def CONFIG_FILE_KEY : String := "config/last_collision_date.json"

/-- Object storage content: bucket and key to object body. -/
def S3State : Type := String × String → Option String

/-- `put_object`. -/
def s3put (s : S3State) (bucket key body : String) : S3State :=
  fun bk => if bk = (bucket, key) then some body else s bk

/-- `get_object` (raises, i.e. `none`, when the object is absent). -/
def s3get (s : S3State) (bucket key : String) : Option String :=
  s (bucket, key)

/-- The characters of the serialized document before the date value. -/
def configDocHead : List Char :=
  "\x7b\"last_collision_date\": \"".data

/-- The characters of the serialized document after the date value. -/
def configDocTail : List Char :=
  "\"\x7d".data

/-- `json.dumps(\x7b"last_collision_date": new_date\x7d)`. -/
def dumpsConfig (d : String) : String :=
  String.mk (configDocHead ++ d.data ++ configDocTail)

/-- Strip an exact head from a character list. -/
def stripHead : List Char → List Char → Option (List Char)
  | [], s => some s
  | _ :: _, [] => none
  | p :: ps, c :: cs => if c = p then stripHead ps cs else none

/-- Strip an exact tail from a character list. -/
def stripTail (suf s : List Char) : Option (List Char) :=
  (stripHead suf.reverse s.reverse).map List.reverse

/-- `json.loads(content)["last_collision_date"]`, specialised to the
document shape `update_last_collision_date` writes (`none` models a raised
parse or key error). -/
def loadsConfig (content : String) : Option String := do
  let mid ← stripHead configDocHead content.data
  let v ← stripTail configDocTail mid
  pure (String.mk v)

/-- `read_last_collision_date()` over the modelled store (`none` models a
raised exception: missing object, malformed JSON, missing key). -/
def read_last_collision_date (s : S3State) : Option String :=
  (s3get s CONFIG_BUCKET CONFIG_FILE_KEY).bind loadsConfig

/-- `update_last_collision_date(new_date)` over the modelled store. -/
def update_last_collision_date (newDate : String) (s : S3State) : S3State :=
  s3put s CONFIG_BUCKET CONFIG_FILE_KEY (dumpsConfig newDate)

/-! ## `main` -/

/-- Exceptions that can reach the top-level handler of `main`. -/
inductive PErr where
  /-- `read_last_collision_date` raised (missing/malformed document). -/
  | configError
  /-- `download_new_data` raised. -/
  | fetchError (e : FetchErr)
  /-- `agg(max(col("crash_date")))` raised: no `crash_date` column. -/
  | analysisError
  /-- The aggregated max was SQL null, so `.split("T")` raised. -/
  | nullMax
  /-- `transform_data` raised (analysis error or parquet write failure). -/
  | transformError
  /-- `load_data_into_redshift` raised. -/
  | loadError
deriving Repr, DecidableEq

/-- Python `s.split("T")[0]`: the part before the first `T`. -/
def splitT (s : String) : String :=
  String.mk (s.data.takeWhile (fun c => c ≠ 'T'))

/-- Lexicographic (code-point) comparison of character lists, as Spark
compares string column values. -/
def lexLeChars : List Char → List Char → Bool
  | [], _ => true
  | _ :: _, [] => false
  | a :: as, b :: bs =>
    if a = b then lexLeChars as bs
    else decide (a.toNat < b.toNat)

/-- Lexicographic `<=` on strings. -/
def sLe (a b : String) : Bool :=
  lexLeChars a.data b.data

/-- Binary max of two string values under `sLe`. -/
def sMax (a b : String) : String :=
  if sLe a b then b else a

/-- `agg(max(col("crash_date")))`: maximum of the non-null `crash_date`
values, SQL null when there are none. -/
def maxCrashDate (df : DF) : Option String :=
  match df.rows.filterMap (fun r => getField r "crash_date") with
  | [] => none
  | c :: cs => some (cs.foldl sMax c)

/-- The external state and fault injection for one invocation of `main`:
the object store, the HTTP trace, and whether the two external calls of the
transform/load stages succeed. -/
structure World where
  s3 : S3State
  responses : List ApiResponse
  transformOk : Bool
  loadOk : Bool

/-- The `try` block of `main`: returns the object store after the run and
the outcome.  The store is written only by the final
`update_last_collision_date`. -/
def runPipeline (w : World) : S3State × Except PErr Unit :=
  match read_last_collision_date w.s3 with
  | none => (w.s3, .error .configError)
  | some wm =>
    match (download_new_data wm w.responses).2 with
    | .error e => (w.s3, .error (.fetchError e))
    | .ok none => (w.s3, .ok ())
    | .ok (some df) =>
      if "crash_date" ∈ df.cols then
        match maxCrashDate df with
        | none => (w.s3, .error .nullMax)
        | some m =>
          if w.transformOk then
            if w.loadOk then
              (update_last_collision_date (splitT m) w.s3, .ok ())
            else (w.s3, .error .loadError)
          else (w.s3, .error .transformError)
      else (w.s3, .error .analysisError)

/-- Observable outcome of `main`. -/
structure MainResult where
  s3 : S3State
  logsUploaded : Bool
  sparkStopped : Bool
  caughtError : Option PErr
  exitCode : Nat

/-- `main()`: the `try` block, a catch-all `except` that only records the
exception in the log, and a `finally` that uploads logs and stops Spark.
`main` itself never raises and the process exits with code 0. -/
def main (w : World) : MainResult :=
  let res := runPipeline w
  { s3 := res.1
    logsUploaded := true
    sparkStopped := true
    caughtError := match res.2 with | .error e => some e | .ok _ => none
    exitCode := 0 }

/-- A world with an empty object store and no responses: the watermark
read raises immediately. -/
def emptyWorld : World :=
  { s3 := fun _ => none
    responses := []
    transformOk := true
    loadOk := true }

/-- A world for the happy path: watermark "2023-01-01" stored, one page
with one newer record, then an empty page; transform and load succeed. -/
def demoWorld : World :=
  { s3 := update_last_collision_date "2023-01-01" (fun _ => none)
    responses :=
      [⟨200, [[("collision_id", "1"), ("crash_date", "2023-01-02T00:00:00.000")]]⟩,
        ⟨200, []⟩]
    transformOk := true
    loadOk := true }

/-! ## Spec-side restatements (for refinement claims only)

These follow the wording of the specification, to be compared against the
definitions above, which follow the code. -/

/-- Spec wording of the `time_of_day` bucketing: Late Night [0,6), Morning
[6,12), Afternoon [12,17), Evening [17,21), Night for [21,24) and for any
out-of-range or null hour. -/
def timeOfDaySpec (h : Option Int) : String :=
  match h with
  | none => "Night"
  | some v =>
    if 0 ≤ v ∧ v < 6 then "Late Night"
    else if 6 ≤ v ∧ v < 12 then "Morning"
    else if 12 ≤ v ∧ v < 17 then "Afternoon"
    else if 17 ≤ v ∧ v < 21 then "Evening"
    else "Night"

/-- Spec wording of `severity_category` on non-null totals: sum `== 0` is
"Minor", sum `<= 2` (and nonzero) is "Moderate", otherwise "Severe". -/
def severitySpec (i f : Int) : String :=
  if i + f = 0 then "Minor"
  else if i + f ≤ 2 then "Moderate"
  else "Severe"

/-! ## Helper lemmas -/

theorem sAnd_some_some (a b : Bool) : sAnd (some a) (some b) = some (a && b) := by
  cases a <;> cases b <;> rfl

theorem nadd_none_left (b : Option Int) : nadd none b = none := by
  cases b <;> rfl

theorem nadd_none_right (a : Option Int) : nadd a none = none := by
  cases a <;> rfl

theorem stripHead_append (p s : List Char) : stripHead p (p ++ s) = some s := by
  induction p with
  | nil => rfl
  | cons c cs ih => simp [stripHead, ih]

theorem stripTail_append (suf s : List Char) : stripTail suf (s ++ suf) = some s := by
  simp [stripTail, List.reverse_append, stripHead_append]

theorem loads_dumps (d : String) : loadsConfig (dumpsConfig d) = some d := by
  obtain ⟨l⟩ := d
  simp [loadsConfig, dumpsConfig, List.append_assoc, stripHead_append, stripTail_append]

/-- Round trip of the watermark document through the modelled store. -/
theorem read_update_eq (d : String) (s : S3State) :
    read_last_collision_date (update_last_collision_date d s) = some d := by
  simp [read_last_collision_date, update_last_collision_date, s3get, s3put, loads_dumps]

theorem insertCol_of_mem {cols : List String} {c : String} (h : c ∈ cols) :
    insertCol cols c = cols := by
  simp [insertCol, h]

theorem mem_insertCol (cols : List String) (c d : String) (h : d ∈ cols) :
    d ∈ insertCol cols c := by
  by_cases hc : c ∈ cols <;> simp [insertCol, hc, h]

theorem mem_insertCol_self (cols : List String) (c : String) :
    c ∈ insertCol cols c := by
  by_cases hc : c ∈ cols <;> simp [insertCol, hc]

theorem foldl_insertCol_mono (ks : List String) :
    ∀ (acc : List String) (k : String), k ∈ acc → k ∈ ks.foldl insertCol acc := by
  induction ks with
  | nil => intro acc k h; exact h
  | cons a as ih =>
    intro acc k h
    rw [List.foldl_cons]
    exact ih _ k (mem_insertCol acc a k h)

theorem foldl_insertCol_mem (ks : List String) :
    ∀ (acc : List String) (k : String), k ∈ ks → k ∈ ks.foldl insertCol acc := by
  induction ks with
  | nil => intro acc k h; cases h
  | cons a as ih =>
    intro acc k h
    rw [List.foldl_cons]
    rcases List.mem_cons.mp h with rfl | h2
    · exact foldl_insertCol_mono as _ k (mem_insertCol_self acc k)
    · exact ih _ k h2

theorem foldl_insertCol_of_subset (ks : List String) :
    ∀ acc : List String, (∀ k ∈ ks, k ∈ acc) → ks.foldl insertCol acc = acc := by
  induction ks with
  | nil => intro acc _; rfl
  | cons a as ih =>
    intro acc h
    rw [List.foldl_cons, insertCol_of_mem (h a (by simp))]
    exact ih acc (fun k hk => h k (by simp [hk]))

/-- Folding identical records into a schema that already holds their keys
changes nothing. -/
theorem foldl_rowStep_replicate (r : Row) (n : Nat) :
    ∀ acc : List String, (∀ k ∈ r.map Prod.fst, k ∈ acc) →
      (List.replicate n r).foldl
          (fun acc2 r2 => (r2.map Prod.fst).foldl insertCol acc2) acc = acc := by
  induction n with
  | zero => intro acc _; rfl
  | succ m ih =>
    intro acc h
    rw [List.replicate_succ, List.foldl_cons, foldl_insertCol_of_subset _ acc h]
    exact ih acc h

/-- Schema inference over a page of identical records equals inference
over one such record. -/
theorem inferCols_replicate (n : Nat) (hn : n ≠ 0) (r : Row) :
    inferCols (List.replicate n r) = inferCols [r] := by
  obtain ⟨m, rfl⟩ := Nat.exists_eq_succ_of_ne_zero hn
  unfold inferCols
  rw [List.replicate_succ, List.foldl_cons,
    foldl_rowStep_replicate r m _ (fun k hk => foldl_insertCol_mem _ _ _ hk)]
  rfl

/-- Two successful non-empty pages with different column sets stop the
fetch after the second request with a schema-mismatch error, whatever
responses follow. -/
theorem download_mismatch_stops (wm : String) (d1 d2 : List Row)
    (rest : List ApiResponse) (h1 : d1 ≠ []) (h2 : d2 ≠ [])
    (hs : colsEqv (inferCols d1) (inferCols d2) = false) :
    download_new_data wm (⟨200, d1⟩ :: ⟨200, d2⟩ :: rest)
      = ([mkRequest wm 0, mkRequest wm LIMIT], Except.error FetchErr.schemaMismatch) := by
  simp [download_new_data, downloadLoop, unionAcc, unionByName, mkDF, h1, h2, hs]

/-! ## Claims -/

/-- C3: the `time_of_day` derivation in `transform_data` is total and
deterministic: for every integer hour `h` it yields "Late Night" on
`[0,6)`, "Morning" on `[6,12)`, "Afternoon" on `[12,17)`, "Evening" on
`[17,21)`, and "Night" on `[21,24)` as well as for any out-of-range or
null hour. -/
theorem c3_time_of_day_total (h : Option Int) : timeOfDay h = timeOfDaySpec h := by
  rcases h with _ | v
  · rfl
  · simp only [timeOfDay, timeOfDaySpec, sparkWhen, cmpGe, cmpLt, Option.map_some',
      sAnd_some_some, Option.some.injEq, Bool.and_eq_true, decide_eq_true_eq, ge_iff_le]

/-- C4: for records whose `total_injuries` and `total_fatalities` are both
non-null, `severity_category` is a pure function of their sum: "Minor" when
the sum is 0, "Moderate" when it is at most 2 (and nonzero), and "Severe"
otherwise. -/
theorem c4_severity_of_sum (i f : Int) :
    severityCategory (some i) (some f) = severitySpec i f := by
  simp only [severityCategory, severitySpec, nadd, sparkWhen, cmpEq, cmpLe,
    Option.map_some', Option.some.injEq, decide_eq_true_eq]

/-- C10: when `total_injuries` or `total_fatalities` is null, both branch
conditions of the `severity_category` `when`-chain evaluate to null, so the
record falls to the `otherwise` branch and `severity_category` is "Severe"
(in particular it is never null: the derivation returns a `String`). -/
theorem c10_null_totals_severe (ti tf : Option Int) (h : ti = none ∨ tf = none) :
    severityCategory ti tf = "Severe" ∧
      cmpEq (nadd ti tf) 0 = none ∧ cmpLe (nadd ti tf) 2 = none := by
  have hn : nadd ti tf = none := by
    rcases h with h | h
    · subst h; exact nadd_none_left tf
    · subst h; exact nadd_none_right ti
  simp [severityCategory, hn, cmpEq, cmpLe, sparkWhen]

theorem c10_null_totals_severe_witness :
    ((some 3 : Option Int) = none ∨ (none : Option Int) = none) ∧
      (severityCategory (some 3) none = "Severe" ∧
        cmpEq (nadd (some 3) none) 0 = none ∧ cmpLe (nadd (some 3) none) 2 = none) :=
  ⟨Or.inr rfl, c10_null_totals_severe (some 3) none (Or.inr rfl)⟩

/-- C9: watermark round trip: for any date string `d`,
`update_last_collision_date d` followed by `read_last_collision_date`
returns `d` (the write serializes the one-field document and overwrites the
object; the read parses it back). -/
theorem c9_watermark_roundtrip (d : String) (s : S3State) :
    read_last_collision_date (update_last_collision_date d s) = some d :=
  read_update_eq d s

/-- A successful `unionByName` concatenates the row lists. -/
theorem unionByName_ok_rows (a b c : DF) (h : unionByName a b = Except.ok c) :
    c.rows = a.rows ++ b.rows := by
  unfold unionByName at h
  by_cases hc : colsEqv a.cols b.cols
  · simp only [hc, if_true] at h
    cases h
    rfl
  · simp [hc] at h

/-- Every row of the dataframe returned by the fetch loop comes from the
initial accumulator or from the body of one of the consumed responses. -/
theorem downloadLoop_rows_from_responses (wm : String) :
    ∀ (resps : List ApiResponse) (acc : Option DF) (offset : Nat) (df : DF),
      (downloadLoop wm acc offset resps).2 = Except.ok (some df) →
      ∀ r ∈ df.rows,
        (∃ a, acc = some a ∧ r ∈ a.rows) ∨ ∃ resp ∈ resps, r ∈ resp.body := by
  intro resps
  induction resps with
  | nil =>
    intro acc offset df h
    simp [downloadLoop] at h
  | cons q rest ih =>
    intro acc offset df h r hr
    by_cases hst : q.status = 200
    · by_cases hb : q.body = []
      · simp [downloadLoop, hst, hb] at h
        exact Or.inl ⟨df, by rw [h], hr⟩
      · rcases hacc : unionAcc acc (mkDF q.body) with e | acc2
        · simp [downloadLoop, hst, hb, hacc] at h
        · have h2 : (downloadLoop wm (some acc2) (offset + LIMIT) rest).2
              = Except.ok (some df) := by
            simpa [downloadLoop, hst, hb, hacc] using h
          rcases ih (some acc2) (offset + LIMIT) df h2 r hr with ⟨a, ha, hra⟩ | ⟨resp, hresp, hrr⟩
          · obtain rfl : acc2 = a := by injection ha
            cases acc with
            | none =>
              have hbody : acc2 = mkDF q.body := by
                have := hacc
                simp [unionAcc] at this
                exact this.symm
              refine Or.inr ⟨q, by simp, ?_⟩
              rw [hbody] at hra
              exact hra
            | some a0 =>
              have hrows : acc2.rows = a0.rows ++ q.body := by
                refine unionByName_ok_rows a0 (mkDF q.body) acc2 ?_
                simpa [unionAcc] using hacc
              rw [hrows] at hra
              rcases List.mem_append.mp hra with h1 | h2
              · exact Or.inl ⟨a0, rfl, h1⟩
              · exact Or.inr ⟨q, by simp, h2⟩
          · exact Or.inr ⟨resp, List.mem_cons_of_mem _ hresp, hrr⟩
    · simp [downloadLoop, hst] at h
      exact Or.inl ⟨df, by rw [h], hr⟩

theorem lexLeChars_refl (l : List Char) : lexLeChars l l = true := by
  induction l with
  | nil => rfl
  | cons c cs ih => simp [lexLeChars, ih]

theorem sLe_refl (s : String) : sLe s s = true :=
  lexLeChars_refl s.data

/-- The fold of `sMax` over a list stays inside the list (with its seed). -/
theorem foldl_sMax_mem (cs : List String) :
    ∀ c, cs.foldl sMax c = c ∨ cs.foldl sMax c ∈ cs := by
  induction cs with
  | nil => intro c; exact Or.inl rfl
  | cons d ds ih =>
    intro c
    rw [List.foldl_cons]
    rcases ih (sMax c d) with h | h
    · rw [h]
      by_cases hle : sLe c d = true
      · right
        simp [sMax, hle]
      · left
        simp [sMax, hle]
    · right
      exact List.mem_cons_of_mem _ h

/-- The aggregated max crash date, when non-null, is the `crash_date` of
one of the rows. -/
theorem maxCrashDate_mem (df : DF) (m : String) (h : maxCrashDate df = some m) :
    ∃ r ∈ df.rows, getField r "crash_date" = some m := by
  unfold maxCrashDate at h
  rcases hfm : df.rows.filterMap (fun r => getField r "crash_date") with _ | ⟨c, cs⟩
  · rw [hfm] at h
    cases h
  · rw [hfm] at h
    injection h with h
    have hmem : m ∈ c :: cs := by
      rcases foldl_sMax_mem cs c with h2 | h2
      · rw [← h, h2]
        exact List.mem_cons_self c cs
      · rw [← h]
        exact List.mem_cons_of_mem _ h2
    rw [← hfm] at hmem
    obtain ⟨r, hr, hval⟩ := List.mem_filterMap.mp hmem
    exact ⟨r, hr, hval⟩

/-- C1 counterexample: a full-schema batch (every column `transform_data`
references is present, so the transform succeeds) containing one record
whose raw `collision_id` is the non-null, non-numeric string "abc": the
record survives the `dropna` (which runs before the integer cast) and is
emitted with a null `collision_id`, refuting the claimed non-null
invariant. -/
theorem c1_counterexample :
    transform_data (mkDF [nonNumericIdRow])
      = Except.ok [(⟨none, some 0, some 0, "Minor"⟩ : TRow)] := by
  rfl

/-- C1 (amended): whenever `transform_data` succeeds — the batch schema
carries every unconditionally referenced column — each record of the
transformed dataset comes from an input record whose raw `collision_id`
was non-null, and its `collision_id` equals the integer cast of that raw
value: an integer exactly when the raw string parses as a 32-bit integer,
and null (the record is emitted, not dropped) when a non-null raw value is
non-numeric. -/
theorem c1_collision_id_cast (df : DF) (out : List TRow)
    (h : transform_data df = Except.ok out) :
    ∀ t ∈ out, ∃ r ∈ df.rows,
      (getField r "collision_id").isSome = true ∧
      t.collision_id = (getField r "collision_id").bind castStringToInt := by
  intro t ht
  unfold transform_data at h
  split at h
  · injection h with h
    subst h
    simp only [List.mem_map, List.mem_filter] at ht
    obtain ⟨r, ⟨hr, hp⟩, rfl⟩ := ht
    exact ⟨r, hr, hp, rfl⟩
  · cases h

/-- C5 counterexample: an API returning pages of sizes
`[LIMIT, LIMIT, 0]` whose two full pages have different column sets: the
fetch issues only two requests (offsets `0` and `LIMIT`) and raises in
`unionByName` instead of issuing a third request and returning a union,
refuting the claim as stated for arbitrary page contents. -/
theorem c5_counterexample :
    download_new_data "2023-01-01"
        [⟨200, List.replicate LIMIT boroughOnlyRow⟩,
          ⟨200, List.replicate LIMIT idOnlyRow⟩, ⟨200, []⟩]
      = ([mkRequest "2023-01-01" 0, mkRequest "2023-01-01" LIMIT],
          Except.error FetchErr.schemaMismatch) := by
  have hL : LIMIT ≠ 0 := by decide
  have hA : List.replicate LIMIT boroughOnlyRow ≠ [] := by
    intro h
    have h2 := congrArg List.length h
    rw [List.length_replicate, List.length_nil] at h2
    exact hL h2
  have hB : List.replicate LIMIT idOnlyRow ≠ [] := by
    intro h
    have h2 := congrArg List.length h
    rw [List.length_replicate, List.length_nil] at h2
    exact hL h2
  have hs : colsEqv (inferCols (List.replicate LIMIT boroughOnlyRow))
      (inferCols (List.replicate LIMIT idOnlyRow)) = false := by
    rw [inferCols_replicate LIMIT hL, inferCols_replicate LIMIT hL]
    decide
  exact download_mismatch_stops "2023-01-01" _ _ _ hA hB hs

/-- C5 (amended): against an API returning pages of sizes
`[LIMIT, LIMIT, 0]` whose pages share one column set (so the by-name union
succeeds), `download_new_data` issues exactly three requests, at offsets
`0`, `LIMIT` and `2 * LIMIT`, each filtered by `crash_date > watermark`,
and returns the union of the records of the first two pages. -/
theorem c5_pagination (wm : String) (d1 d2 : List Row)
    (h1 : d1.length = LIMIT) (h2 : d2.length = LIMIT)
    (hs : colsEqv (inferCols d1) (inferCols d2) = true) :
    download_new_data wm [⟨200, d1⟩, ⟨200, d2⟩, ⟨200, []⟩] =
      ([mkRequest wm 0, mkRequest wm LIMIT, mkRequest wm (2 * LIMIT)],
        Except.ok (some { cols := inferCols d1, rows := d1 ++ d2 })) := by
  have hne1 : d1 ≠ [] := by intro h; rw [h] at h1; simp [LIMIT] at h1
  have hne2 : d2 ≠ [] := by intro h; rw [h] at h2; simp [LIMIT] at h2
  simp [download_new_data, downloadLoop, unionAcc, unionByName, mkDF, hne1, hne2, hs,
    two_mul]

theorem colsEqv_self (a : List String) : colsEqv a a = true := by
  simp [colsEqv, List.all_eq_true]

theorem c5_pagination_witness :
    (List.replicate LIMIT ([("collision_id", "1")] : Row)).length = LIMIT ∧
      (List.replicate LIMIT ([("collision_id", "1")] : Row)).length = LIMIT ∧
      colsEqv (inferCols (List.replicate LIMIT [("collision_id", "1")]))
          (inferCols (List.replicate LIMIT [("collision_id", "1")])) = true ∧
      download_new_data "2023-01-01"
          [⟨200, List.replicate LIMIT [("collision_id", "1")]⟩,
            ⟨200, List.replicate LIMIT [("collision_id", "1")]⟩, ⟨200, []⟩] =
        ([mkRequest "2023-01-01" 0, mkRequest "2023-01-01" LIMIT,
            mkRequest "2023-01-01" (2 * LIMIT)],
          Except.ok (some
            { cols := inferCols (List.replicate LIMIT [("collision_id", "1")]),
              rows := List.replicate LIMIT [("collision_id", "1")]
                ++ List.replicate LIMIT [("collision_id", "1")] })) :=
  ⟨by simp, by simp, colsEqv_self _,
    c5_pagination "2023-01-01" _ _ (by simp) (by simp) (colsEqv_self _)⟩

/-- C6: when a request returns a non-200 status, or a page comes back with
zero records, `download_new_data` stops issuing requests and returns the
records accumulated from the earlier successful pages without raising — in
particular an absent dataset (`none`) when no page contributed. -/
theorem c6_early_stop (wm : String) (acc : Option DF) (offset : Nat)
    (r : ApiResponse) (rest : List ApiResponse)
    (h : r.status ≠ 200 ∨ r.body = []) :
    downloadLoop wm acc offset (r :: rest) = ([mkRequest wm offset], Except.ok acc) ∧
      download_new_data wm (r :: rest) = ([mkRequest wm 0], Except.ok none) := by
  have stop : ∀ (acc2 : Option DF) (off2 : Nat),
      downloadLoop wm acc2 off2 (r :: rest) = ([mkRequest wm off2], Except.ok acc2) := by
    intro acc2 off2
    by_cases hst : r.status = 200
    · rcases h with h | h
      · exact absurd hst h
      · simp [downloadLoop, hst, h]
    · simp [downloadLoop, hst]
  exact ⟨stop acc offset, stop none 0⟩

theorem c6_early_stop_witness :
    ((500 : Nat) ≠ 200 ∨ ([[("borough", "QUEENS")]] : List Row) = []) ∧
      (downloadLoop "2023-01-01" (some (mkDF [[("borough", "QUEENS")]])) 7
          [⟨500, [[("borough", "QUEENS")]]⟩, ⟨200, [[("borough", "QUEENS")]]⟩]
        = ([mkRequest "2023-01-01" 7], Except.ok (some (mkDF [[("borough", "QUEENS")]]))) ∧
      download_new_data "2023-01-01"
          [⟨500, [[("borough", "QUEENS")]]⟩, ⟨200, [[("borough", "QUEENS")]]⟩]
        = ([mkRequest "2023-01-01" 0], Except.ok none)) :=
  ⟨Or.inl (by decide),
    c6_early_stop "2023-01-01" (some (mkDF [[("borough", "QUEENS")]])) 7
      ⟨500, [[("borough", "QUEENS")]]⟩ [⟨200, [[("borough", "QUEENS")]]⟩]
      (Or.inl (by decide))⟩

/-- C2 counterexample: two successful pages whose records have different
column sets make the `unionByName` accumulation of `download_new_data`
raise a schema-mismatch error instead of producing a unified dataset. -/
theorem c2_counterexample :
    (download_new_data "2023-01-01"
        [⟨200, [[("borough", "BROOKLYN")]]⟩, ⟨200, [[("collision_id", "1")]]⟩]).2
      = Except.error FetchErr.schemaMismatch := by
  rfl

/-- Accumulation invariant of the fetch loop: starting from an accumulated
dataframe, a run of successful non-empty pages whose inferred column sets
all match the accumulator's, followed by an empty page, yields the
accumulator extended with all the pages' records. -/
theorem downloadLoop_all_ok (wm : String) :
    ∀ (pages : List (List Row)) (acc : DF) (offset : Nat),
      (∀ p ∈ pages, p ≠ []) →
      (∀ p ∈ pages, colsEqv acc.cols (inferCols p) = true) →
      (downloadLoop wm (some acc) offset
          (pages.map (fun p => ⟨200, p⟩) ++ [⟨200, ([] : List Row)⟩])).2
        = Except.ok (some ⟨acc.cols, acc.rows ++ pages.flatten⟩) := by
  intro pages
  induction pages with
  | nil =>
    intro acc offset _ _
    simp [downloadLoop]
  | cons p ps ih =>
    intro acc offset hne hcols
    have hp : p ≠ [] := hne p (by simp)
    have hc : colsEqv acc.cols (inferCols p) = true := hcols p (by simp)
    have step : (downloadLoop wm (some acc) offset
          ((p :: ps).map (fun q => ⟨200, q⟩) ++ [⟨200, ([] : List Row)⟩])).2
        = (downloadLoop wm (some ⟨acc.cols, acc.rows ++ p⟩) (offset + LIMIT)
            (ps.map (fun q => ⟨200, q⟩) ++ [⟨200, ([] : List Row)⟩])).2 := by
      simp [downloadLoop, hp, unionAcc, unionByName, mkDF, hc]
    rw [step, ih ⟨acc.cols, acc.rows ++ p⟩ (offset + LIMIT)
      (fun q hq => hne q (List.mem_cons_of_mem _ hq))
      (fun q hq => hcols q (List.mem_cons_of_mem _ hq))]
    simp [List.append_assoc]

/-- C2 (amended): `download_new_data` accumulates the pages via a by-name
union that requires every page to carry the same column set as the pages
before it: with equal column sets all records of all pages are returned in
one dataset, whereas pages with different column sets raise an error (the
union is `unionByName` without `allowMissingColumns`). -/
theorem c2_union_requires_equal_cols (wm : String) (p0 : List Row)
    (rest : List (List Row)) (h0 : p0 ≠ []) (hne : ∀ p ∈ rest, p ≠ [])
    (hcols : ∀ p ∈ rest, colsEqv (inferCols p0) (inferCols p) = true) :
    (download_new_data wm
        ((p0 :: rest).map (fun p => ⟨200, p⟩) ++ [⟨200, ([] : List Row)⟩])).2
      = Except.ok (some ⟨inferCols p0, (p0 :: rest).flatten⟩) := by
  have step : (download_new_data wm
        ((p0 :: rest).map (fun p => ⟨200, p⟩) ++ [⟨200, ([] : List Row)⟩])).2
      = (downloadLoop wm (some (mkDF p0)) (0 + LIMIT)
          (rest.map (fun p => ⟨200, p⟩) ++ [⟨200, ([] : List Row)⟩])).2 := by
    simp [download_new_data, downloadLoop, h0, unionAcc]
  rw [step, downloadLoop_all_ok wm rest (mkDF p0) (0 + LIMIT) hne hcols]
  simp [mkDF]

theorem c2_union_requires_equal_cols_witness :
    ([[("borough", "BRONX")]] : List Row) ≠ [] ∧
      (∀ p ∈ ([[[("borough", "STATEN ISLAND")]]] : List (List Row)), p ≠ []) ∧
      (∀ p ∈ ([[[("borough", "STATEN ISLAND")]]] : List (List Row)),
        colsEqv (inferCols [[("borough", "BRONX")]]) (inferCols p) = true) ∧
      (download_new_data "2023-01-01"
          ((([[[("borough", "BRONX")]], [[("borough", "STATEN ISLAND")]]] : List (List Row)).map
              (fun p => ⟨200, p⟩)) ++ [⟨200, ([] : List Row)⟩])).2
        = Except.ok (some ⟨inferCols [[("borough", "BRONX")]],
            ([[[("borough", "BRONX")]], [[("borough", "STATEN ISLAND")]]] : List (List Row)).flatten⟩) :=
  ⟨by decide, by decide, by decide,
    c2_union_requires_equal_cols "2023-01-01" [[("borough", "BRONX")]]
      [[[("borough", "STATEN ISLAND")]]] (by decide) (by decide) (by decide)⟩

theorem c1_collision_id_cast_witness :
    transform_data (mkDF [numericIdRow]) = Except.ok [transformRow numericIdRow] ∧
      ∀ t ∈ [transformRow numericIdRow], ∃ r ∈ (mkDF [numericIdRow]).rows,
        (getField r "collision_id").isSome = true ∧
        t.collision_id = (getField r "collision_id").bind castStringToInt :=
  ⟨rfl, c1_collision_id_cast (mkDF [numericIdRow]) [transformRow numericIdRow] rfl⟩

/-- C7: the watermark is monotonically non-decreasing across runs and
written only on success: whatever watermark the final store holds is at
least the one read at job start (given the API honors the
`crash_date > watermark` filter); the store is unchanged on any pipeline
failure, on an empty fetch, and whenever the warehouse load does not
complete; and on full success the stored watermark is the maximum
`crash_date` of the fetched batch, truncated at `T`. -/
theorem c7_watermark_monotone (w : World) (wm : String)
    (hread : read_last_collision_date w.s3 = some wm)
    (hfilter : ∀ resp ∈ w.responses, ∀ r ∈ resp.body,
      ((getField r "crash_date").all fun c => sLe wm (splitT c)) = true) :
    (∀ wm2, read_last_collision_date (main w).s3 = some wm2 → sLe wm wm2 = true) ∧
      (∀ e, (runPipeline w).2 = Except.error e → (main w).s3 = w.s3) ∧
      ((download_new_data wm w.responses).2 = Except.ok none → (main w).s3 = w.s3) ∧
      (w.loadOk = false → (main w).s3 = w.s3) ∧
      (∀ df m, (download_new_data wm w.responses).2 = Except.ok (some df) →
        "crash_date" ∈ df.cols → maxCrashDate df = some m →
        w.transformOk = true → w.loadOk = true →
        (main w).s3 = update_last_collision_date (splitT m) w.s3) := by
  have hcases : (main w).s3 = w.s3 ∨
      ∃ df m, (download_new_data wm w.responses).2 = Except.ok (some df) ∧
        "crash_date" ∈ df.cols ∧ maxCrashDate df = some m ∧
        w.transformOk = true ∧ w.loadOk = true ∧
        (main w).s3 = update_last_collision_date (splitT m) w.s3 ∧
        (runPipeline w).2 = Except.ok () := by
    rcases hdl : (download_new_data wm w.responses).2 with e | odf
    · left
      simp [main, runPipeline, hread, hdl]
    · rcases odf with _ | df
      · left
        simp [main, runPipeline, hread, hdl]
      · by_cases hcd : "crash_date" ∈ df.cols
        · rcases hm : maxCrashDate df with _ | m
          · left
            simp [main, runPipeline, hread, hdl, hcd, hm]
          · cases htr : w.transformOk
            · left
              simp [main, runPipeline, hread, hdl, hcd, hm, htr]
            · cases hld : w.loadOk
              · left
                simp [main, runPipeline, hread, hdl, hcd, hm, htr, hld]
              · right
                refine ⟨df, m, rfl, hcd, hm, rfl, rfl, ?_, ?_⟩ <;>
                  simp [main, runPipeline, hread, hdl, hcd, hm, htr, hld]
        · left
          simp [main, runPipeline, hread, hdl, hcd]
  refine ⟨?_, ?_, ?_, ?_, ?_⟩
  · intro wm2 hwm2
    rcases hcases with h | ⟨df, m, hdf, _, hmax, _, _, hs3, _⟩
    · rw [h, hread] at hwm2
      cases hwm2
      exact sLe_refl wm
    · rw [hs3, read_update_eq] at hwm2
      cases hwm2
      obtain ⟨r, hr, hval⟩ := maxCrashDate_mem df m hmax
      rcases downloadLoop_rows_from_responses wm w.responses none 0 df hdf r hr with
        ⟨a, ha, _⟩ | ⟨resp, hresp, hrr⟩
      · cases ha
      · have hle := hfilter resp hresp r hrr
        rw [hval] at hle
        simpa using hle
  · intro e he
    rcases hcases with h | ⟨_, _, _, _, _, _, _, _, hok⟩
    · exact h
    · rw [hok] at he
      cases he
  · intro hnone
    rcases hcases with h | ⟨df, m, hdf, _, _, _, _, _, _⟩
    · exact h
    · rw [hnone] at hdf
      cases hdf
  · intro hld
    rcases hcases with h | ⟨_, _, _, _, _, _, hld2, _, _⟩
    · exact h
    · rw [hld] at hld2
      cases hld2
  · intro df m h1 h2 h3 h4 h5
    simp [main, runPipeline, hread, h1, h2, h3, h4, h5]

theorem c7_watermark_monotone_witness :
    read_last_collision_date demoWorld.s3 = some "2023-01-01" ∧
      (∀ resp ∈ demoWorld.responses, ∀ r ∈ resp.body,
        ((getField r "crash_date").all fun c => sLe "2023-01-01" (splitT c)) = true) ∧
      ((∀ wm2, read_last_collision_date (main demoWorld).s3 = some wm2 →
          sLe "2023-01-01" wm2 = true) ∧
        (∀ e, (runPipeline demoWorld).2 = Except.error e →
          (main demoWorld).s3 = demoWorld.s3) ∧
        ((download_new_data "2023-01-01" demoWorld.responses).2 = Except.ok none →
          (main demoWorld).s3 = demoWorld.s3) ∧
        (demoWorld.loadOk = false → (main demoWorld).s3 = demoWorld.s3) ∧
        (∀ df m,
          (download_new_data "2023-01-01" demoWorld.responses).2 = Except.ok (some df) →
          "crash_date" ∈ df.cols → maxCrashDate df = some m →
          demoWorld.transformOk = true → demoWorld.loadOk = true →
          (main demoWorld).s3
            = update_last_collision_date (splitT m) demoWorld.s3)) :=
  ⟨read_update_eq "2023-01-01" (fun _ => none), by decide,
    c7_watermark_monotone demoWorld "2023-01-01"
      (read_update_eq "2023-01-01" (fun _ => none)) (by decide)⟩

/-- C8: for every execution, every pipeline exception is caught by the
single top-level handler and only recorded in the log — `main` returns
normally with exit code 0 — and the `finally` block uploads the log and
stops Spark unconditionally: after normal completion, after the no-data
path, and after any failure. -/
theorem c8_catch_all (w : World) :
    (main w).logsUploaded = true ∧ (main w).sparkStopped = true ∧
      (main w).exitCode = 0 ∧
      (∀ e, (runPipeline w).2 = Except.error e → (main w).caughtError = some e) ∧
      (∀ u, (runPipeline w).2 = Except.ok u → (main w).caughtError = none) := by
  refine ⟨rfl, rfl, rfl, ?_, ?_⟩
  · intro e he
    simp [main, he]
  · intro u he
    simp [main, he]

theorem c8_catch_all_witness :
    (main emptyWorld).logsUploaded = true ∧
      (runPipeline emptyWorld).2 = Except.error PErr.configError ∧
      (main emptyWorld).caughtError = some PErr.configError :=
  ⟨(c8_catch_all emptyWorld).1, rfl,
    (c8_catch_all emptyWorld).2.2.2.1 PErr.configError rfl⟩

end NycEtl
